import Mathlib

/-!
Shallow embedding of the Arkanoid game core from
`src/my-game-project/src/App.tsx`.

Numbers are modelled as real numbers; the per-frame animation callback
becomes a pure state-transition function `animate`, gated by `frame`
(the effect only runs the loop while `gameState = playing`).  The
MediaPipe hand-position callback becomes `onResults`, taking the
optional landmark x-coordinate as input.
-/

/- Constants, lines 7-23 of App.tsx. -/

def WIDTH : ℝ := 600
def HEIGHT : ℝ := 400

def PLATFORM_WIDTH : ℝ := 100
def PLATFORM_HEIGHT : ℝ := 10
def PLATFORM_Y : ℝ := HEIGHT - PLATFORM_HEIGHT - 10

def BALL_SIZE : ℝ := 10
def BALL_SPEED : ℝ := 5

def SMOOTHING_FACTOR : ℝ := 0.3
def HAND_HISTORY_SIZE : ℕ := 5

def BLOCK_WIDTH : ℝ := 55
def BLOCK_HEIGHT : ℝ := 20
def BLOCK_ROWS : ℕ := 5
def BLOCK_COLS : ℕ := 10

/- Data model, lines 25-36. -/

structure Block where
  x : ℝ
  y : ℝ
  isDestroyed : Bool

structure Ball where
  x : ℝ
  y : ℝ
  dx : ℝ
  dy : ℝ

inductive GameState where
  | menu
  | playing
  | gameover
  | victory
  deriving DecidableEq

/-- The mutable state of the component: the refs `platformXRef`,
`targetXRef`, `handHistory`, `ballRef` and the React state `score`,
`gameState`, `blocks` (lines 43-50). -/
structure AppState where
  platformX : ℝ
  targetX : ℝ
  handHistory : List ℝ
  ball : Ball
  score : ℕ
  gameState : GameState
  blocks : List Block

/-- `initBlocks` (lines 52-60): a `BLOCK_ROWS × BLOCK_COLS` grid,
flattened row by row. -/
def initBlocks : List Block :=
  ((List.range BLOCK_ROWS).map (fun rowIndex : ℕ =>
    (List.range BLOCK_COLS).map (fun colIndex : ℕ =>
      { x := (colIndex : ℝ) * (BLOCK_WIDTH + 5)
        y := (rowIndex : ℝ) * (BLOCK_HEIGHT + 5) + 30
        isDestroyed := false : Block }))).flatten

/-- `resetGame` (lines 62-69).  Note the hand history is not cleared,
and the reset ball already carries velocity `(BALL_SPEED, -BALL_SPEED)`. -/
noncomputable def resetGame (s : AppState) : AppState :=
  { s with
    blocks := initBlocks
    ball := { x := WIDTH / 2, y := HEIGHT / 2, dx := BALL_SPEED, dy := -BALL_SPEED }
    platformX := WIDTH / 2 - PLATFORM_WIDTH / 2
    targetX := WIDTH / 2 - PLATFORM_WIDTH / 2
    score := 0
    gameState := GameState.playing }

/-- Lines 77-80: push the raw sample, then drop the oldest sample when
the window exceeds `HAND_HISTORY_SIZE`. -/
def pushSample (hist : List ℝ) (x : ℝ) : List ℝ :=
  let pushed := hist ++ [x]
  if HAND_HISTORY_SIZE < pushed.length then pushed.tail else pushed

/-- Line 82: arithmetic mean of the samples currently held. -/
noncomputable def smoothedValue (hist : List ℝ) : ℝ :=
  hist.foldl (fun a b => a + b) 0 / (hist.length : ℝ)

/-- `onResults` (lines 71-86).  The argument is the detected right-hand
landmark's normalized x-coordinate, `none` when no pose or no hand was
detected. -/
noncomputable def onResults (sample : Option ℝ) (s : AppState) : AppState :=
  match sample with
  | Option.none => s
  | Option.some handX =>
    if s.gameState = GameState.playing then
      let x := handX * WIDTH
      let hist := pushSample s.handHistory x
      let avgX := smoothedValue hist
      { s with
        handHistory := hist
        targetX := max 0 (min (WIDTH - PLATFORM_WIDTH) (avgX - PLATFORM_WIDTH / 2)) }
    else s

/-- Line 127: exponential easing of the platform toward the target. -/
noncomputable def newPlatformX (s : AppState) : ℝ :=
  s.platformX + (s.targetX - s.platformX) * SMOOTHING_FACTOR

/-- Lines 129-130: position integration. -/
noncomputable def integrateBall (b : Ball) : Ball :=
  { b with x := b.x + b.dx, y := b.y + b.dy }

/-- Lines 132-137: wall reflection (velocity flip only, no clamping). -/
noncomputable def wallReflect (b : Ball) : Ball :=
  let b1 := if b.x ≤ 0 ∨ b.x + BALL_SIZE ≥ WIDTH then { b with dx := -b.dx } else b
  if b1.y ≤ 0 then { b1 with dy := -b1.dy } else b1

/-- The paddle-collision trigger (lines 139-141). -/
def paddleCond (platformX : ℝ) (b : Ball) : Prop :=
  b.y + BALL_SIZE ≥ PLATFORM_Y ∧
  b.x + BALL_SIZE ≥ platformX ∧
  b.x ≤ platformX + PLATFORM_WIDTH

noncomputable instance (platformX : ℝ) (b : Ball) : Decidable (paddleCond platformX b) := by
  unfold paddleCond; infer_instance

/-- Lines 139-149: paddle collision response — angle from the hit point,
speed magnitude preserved, upward rebound, y snapped onto the paddle. -/
noncomputable def paddlePhase (platformX : ℝ) (b : Ball) : Ball :=
  if paddleCond platformX b then
    { b with
      dx := Real.sqrt (b.dx ^ 2 + b.dy ^ 2) *
        Real.sin ((b.x + BALL_SIZE / 2 - (platformX + PLATFORM_WIDTH / 2)) /
          (PLATFORM_WIDTH / 2) * (Real.pi / 3))
      dy := -|Real.sqrt (b.dx ^ 2 + b.dy ^ 2) *
        Real.cos ((b.x + BALL_SIZE / 2 - (platformX + PLATFORM_WIDTH / 2)) /
          (PLATFORM_WIDTH / 2) * (Real.pi / 3))|
      y := PLATFORM_Y - BALL_SIZE }
  else b

/-- Accumulator of the block-collision loop (lines 151-187): the mapped
block list built so far, the ball's velocity (mutated in place by the
loop body), and `destroyedCount`. -/
structure BlockStep where
  blocks : List Block
  dx : ℝ
  dy : ℝ
  destroyedCount : ℕ

/-- One iteration of the `blocks.map` body (lines 152-187), with the
side effects on `ballRef.current.dx/dy` and `destroyedCount` threaded
through the accumulator. -/
noncomputable def blockCollide (px py : ℝ) (acc : BlockStep) (block : Block) : BlockStep :=
  if block.isDestroyed = true then { acc with blocks := acc.blocks ++ [block] }
  else if px + BALL_SIZE > block.x ∧ px < block.x + BLOCK_WIDTH ∧
          py + BALL_SIZE > block.y ∧ py < block.y + BLOCK_HEIGHT then
    if |px + BALL_SIZE / 2 - (block.x + BLOCK_WIDTH / 2)| ≤ (BALL_SIZE + BLOCK_WIDTH) / 2 ∧
       |py + BALL_SIZE / 2 - (block.y + BLOCK_HEIGHT / 2)| ≤ (BALL_SIZE + BLOCK_HEIGHT) / 2 then
      { blocks := acc.blocks ++ [{ block with isDestroyed := true }]
        dx :=
          if (BALL_SIZE + BLOCK_WIDTH) / 2 * (py + BALL_SIZE / 2 - (block.y + BLOCK_HEIGHT / 2)) >
             (BALL_SIZE + BLOCK_HEIGHT) / 2 * (px + BALL_SIZE / 2 - (block.x + BLOCK_WIDTH / 2))
          then acc.dx else -acc.dx
        dy :=
          if (BALL_SIZE + BLOCK_WIDTH) / 2 * (py + BALL_SIZE / 2 - (block.y + BLOCK_HEIGHT / 2)) >
             (BALL_SIZE + BLOCK_HEIGHT) / 2 * (px + BALL_SIZE / 2 - (block.x + BLOCK_WIDTH / 2))
          then -acc.dy else acc.dy
        destroyedCount := acc.destroyedCount + 1 }
    else { acc with blocks := acc.blocks ++ [block] }
  else { acc with blocks := acc.blocks ++ [block] }

/-- The whole block-collision loop at the ball's current position. -/
noncomputable def blockPhase (b : Ball) (blocks : List Block) : BlockStep :=
  blocks.foldl (blockCollide b.x b.y) { blocks := [], dx := b.dx, dy := b.dy, destroyedCount := 0 }

/-- The ball as it enters the block-collision loop: integrated, wall
reflected, paddle response applied. -/
noncomputable def ballBeforeBlocks (s : AppState) : Ball :=
  paddlePhase (newPlatformX s) (wallReflect (integrateBall s.ball))

/-- Result of the block-collision loop for the frame. -/
noncomputable def blockRes (s : AppState) : BlockStep :=
  blockPhase (ballBeforeBlocks s) s.blocks

/-- One execution of the `animate` callback body (lines 126-228): the
refs are mutated unconditionally; `setBlocks`/`setScore` fire only when
`destroyedCount > 0`; the victory check uses `updatedBlocks` and takes
precedence over the game-over check. -/
noncomputable def animate (s : AppState) : AppState :=
  { platformX := newPlatformX s
    targetX := s.targetX
    handHistory := s.handHistory
    ball :=
      { x := (ballBeforeBlocks s).x
        y := (ballBeforeBlocks s).y
        dx := (blockRes s).dx
        dy := (blockRes s).dy }
    score :=
      if 0 < (blockRes s).destroyedCount then s.score + (blockRes s).destroyedCount * 10
      else s.score
    gameState :=
      if (blockRes s).blocks.all (fun block => block.isDestroyed) = true then GameState.victory
      else if (ballBeforeBlocks s).y > HEIGHT then GameState.gameover
      else s.gameState
    blocks :=
      if 0 < (blockRes s).destroyedCount then (blockRes s).blocks else s.blocks }

/-- The per-render-tick step: the animation effect returns immediately
unless `gameState` is exactly `playing` (lines 118-119, 230). -/
noncomputable def frame (s : AppState) : AppState :=
  if s.gameState = GameState.playing then animate s else s

/-- The outer bounding-box test of the block loop (lines 153-157): the
block is live and the ball's box overlaps it. -/
noncomputable def blockHit (px py : ℝ) (block : Block) : Bool :=
  !block.isDestroyed &&
    (decide (px + BALL_SIZE > block.x) && decide (px < block.x + BLOCK_WIDTH) &&
     decide (py + BALL_SIZE > block.y) && decide (py < block.y + BLOCK_HEIGHT))

/-- Horizontal-bounds invariant: the ball's x stays within the field
except for a one-step overhang of at most `v = |dx|` past either edge,
with the velocity already flipped back toward the interior there. -/
def xInv (v : ℝ) (s : AppState) : Prop :=
  |s.ball.dx| = v ∧
  -v ≤ s.ball.x ∧ s.ball.x ≤ (WIDTH - BALL_SIZE) + v ∧
  (s.ball.x < 0 → s.ball.dx = v) ∧
  (WIDTH - BALL_SIZE < s.ball.x → s.ball.dx = -v)

/-- This frame triggers neither the paddle collision nor any block
collision. -/
def noBallCollisions (s : AppState) : Prop :=
  ¬ paddleCond (newPlatformX s) (wallReflect (integrateBall s.ball)) ∧
  ∀ block ∈ s.blocks,
    blockHit (wallReflect (integrateBall s.ball)).x (wallReflect (integrateBall s.ball)).y
      block = false

/- Concrete states used to instantiate the theorems. -/

/-- A menu-screen state before the first game. -/
noncomputable def stateMenu : AppState :=
  { platformX := 250, targetX := 250, handHistory := []
    ball := { x := 300, y := 200, dx := 5, dy := -5 }
    score := 0, gameState := GameState.menu, blocks := [] }

/-- A playing state whose ball, after integration, sits at `(52, 35)`,
straddling the 5-pixel gap between the first two blocks of row 0. -/
noncomputable def stateTwoHit : AppState :=
  { platformX := 250, targetX := 250, handHistory := []
    ball := { x := 47, y := 40, dx := 5, dy := -5 }
    score := 0, gameState := GameState.playing, blocks := initBlocks }

/-- A playing state with the ball exactly on the left wall and moving
left, as in the claim's own wall-reflection scenario. -/
noncomputable def stateLeftWall : AppState :=
  { platformX := 250, targetX := 250, handHistory := []
    ball := { x := 0, y := 200, dx := -5, dy := -5 }
    score := 0, gameState := GameState.playing, blocks := initBlocks }

/-- A playing state with the ball in mid-air, away from every collider. -/
noncomputable def stateMidair : AppState :=
  { platformX := 250, targetX := 250, handHistory := []
    ball := { x := 300, y := 200, dx := 5, dy := -5 }
    score := 0, gameState := GameState.playing, blocks := initBlocks }

/-- A playing state with a single surviving block that the ball is about
to destroy. -/
noncomputable def stateLastBlock : AppState :=
  { platformX := 250, targetX := 250, handHistory := []
    ball := { x := 47, y := 40, dx := 5, dy := -5 }
    score := 0, gameState := GameState.playing
    blocks := [{ x := 0, y := 30, isDestroyed := false }] }

/-- A playing state whose ball, after integration, lands dead-center on
the paddle top. -/
noncomputable def stateCenterHit : AppState :=
  { platformX := 250, targetX := 250, handHistory := []
    ball := { x := 290, y := 375, dx := 5, dy := -5 }
    score := 0, gameState := GameState.playing, blocks := initBlocks }

/- Helper lemmas about the block-collision loop. -/

lemma blockHit_iff (px py : ℝ) (block : Block) :
    blockHit px py block = true ↔
      block.isDestroyed = false ∧ px + BALL_SIZE > block.x ∧ px < block.x + BLOCK_WIDTH ∧
      py + BALL_SIZE > block.y ∧ py < block.y + BLOCK_HEIGHT := by
  simp [blockHit, and_assoc]

lemma blockCollide_count (px py : ℝ) (acc : BlockStep) (block : Block) :
    (blockCollide px py acc block).destroyedCount =
      acc.destroyedCount + (if blockHit px py block = true then 1 else 0) := by
  unfold blockCollide
  by_cases hd : block.isDestroyed = true
  · have hf : blockHit px py block = false := by simp [blockHit, hd]
    simp [hd, hf]
  · rw [if_neg hd]
    by_cases hab : px + BALL_SIZE > block.x ∧ px < block.x + BLOCK_WIDTH ∧
        py + BALL_SIZE > block.y ∧ py < block.y + BLOCK_HEIGHT
    · have hin : |px + BALL_SIZE / 2 - (block.x + BLOCK_WIDTH / 2)| ≤ (BALL_SIZE + BLOCK_WIDTH) / 2 ∧
          |py + BALL_SIZE / 2 - (block.y + BLOCK_HEIGHT / 2)| ≤ (BALL_SIZE + BLOCK_HEIGHT) / 2 := by
        obtain ⟨h1, h2, h3, h4⟩ := hab
        constructor <;> rw [abs_le] <;> constructor <;> linarith
      have hhit : blockHit px py block = true :=
        (blockHit_iff px py block).mpr ⟨Bool.eq_false_iff.mpr hd, hab⟩
      rw [if_pos hab, if_pos hin, if_pos hhit]
    · have hf : blockHit px py block = false := by
        rw [Bool.eq_false_iff]
        intro h
        exact hab ((blockHit_iff px py block).mp h).2
      rw [if_neg hab, hf]
      simp

lemma blockCollide_miss (px py : ℝ) (acc : BlockStep) (block : Block)
    (h : blockHit px py block = false) :
    blockCollide px py acc block = { acc with blocks := acc.blocks ++ [block] } := by
  unfold blockCollide
  by_cases hd : block.isDestroyed = true
  · rw [if_pos hd]
  · rw [if_neg hd]
    have hab : ¬(px + BALL_SIZE > block.x ∧ px < block.x + BLOCK_WIDTH ∧
        py + BALL_SIZE > block.y ∧ py < block.y + BLOCK_HEIGHT) := by
      intro hab
      have hhit := (blockHit_iff px py block).mpr ⟨Bool.eq_false_iff.mpr hd, hab⟩
      rw [h] at hhit
      exact Bool.false_ne_true hhit
    rw [if_neg hab]

lemma foldl_blockCollide_count (px py : ℝ) (bs : List Block) (acc : BlockStep) :
    (bs.foldl (blockCollide px py) acc).destroyedCount =
      acc.destroyedCount + bs.countP (blockHit px py) := by
  induction bs generalizing acc with
  | nil => simp
  | cons b bs ih =>
    rw [List.foldl_cons, ih, blockCollide_count, List.countP_cons]
    by_cases h : blockHit px py b = true
    · simp [h]
      omega
    · simp [h]

lemma foldl_blockCollide_miss (px py : ℝ) (bs : List Block) (acc : BlockStep)
    (h : ∀ block ∈ bs, blockHit px py block = false) :
    bs.foldl (blockCollide px py) acc = { acc with blocks := acc.blocks ++ bs } := by
  induction bs generalizing acc with
  | nil => simp
  | cons b bs ih =>
    rw [List.foldl_cons, blockCollide_miss px py acc b (h b (List.mem_cons_self b bs)),
      ih _ (fun x hx => h x (List.mem_cons_of_mem _ hx))]
    simp

lemma blockPhase_count (b : Ball) (bs : List Block) :
    (blockPhase b bs).destroyedCount = bs.countP (blockHit b.x b.y) := by
  unfold blockPhase
  rw [foldl_blockCollide_count]
  simp

lemma blockPhase_miss (b : Ball) (bs : List Block)
    (h : ∀ block ∈ bs, blockHit b.x b.y block = false) :
    blockPhase b bs = { blocks := bs, dx := b.dx, dy := b.dy, destroyedCount := 0 } := by
  unfold blockPhase
  rw [foldl_blockCollide_miss _ _ _ _ h]
  simp

/- Helper lemmas about the initial block grid. -/

lemma mem_initBlocks_iff (block : Block) :
    block ∈ initBlocks ↔ ∃ r : ℕ, r < BLOCK_ROWS ∧ ∃ c : ℕ, c < BLOCK_COLS ∧
      block = { x := (c : ℝ) * (BLOCK_WIDTH + 5), y := (r : ℝ) * (BLOCK_HEIGHT + 5) + 30,
                isDestroyed := false } := by
  constructor
  · intro h
    unfold initBlocks at h
    rw [List.mem_flatten] at h
    obtain ⟨l, hl, hbl⟩ := h
    obtain ⟨r, hr, rfl⟩ := List.mem_map.mp hl
    obtain ⟨c, hc, rfl⟩ := List.mem_map.mp hbl
    exact ⟨r, List.mem_range.mp hr, c, List.mem_range.mp hc, rfl⟩
  · rintro ⟨r, hr, c, hc, rfl⟩
    unfold initBlocks
    rw [List.mem_flatten]
    exact ⟨_, List.mem_map.mpr ⟨r, List.mem_range.mpr hr, rfl⟩,
      List.mem_map.mpr ⟨c, List.mem_range.mpr hc, rfl⟩⟩

lemma initBlocks_props (block : Block) (h : block ∈ initBlocks) :
    block.isDestroyed = false ∧ (30 : ℝ) ≤ block.y ∧ block.y ≤ 130 := by
  rw [mem_initBlocks_iff] at h
  obtain ⟨r, hr, c, hc, rfl⟩ := h
  have hr4 : (r : ℝ) ≤ 4 := by
    have : r ≤ 4 := by
      unfold BLOCK_ROWS at hr
      omega
    exact_mod_cast this
  have hr0 : (0 : ℝ) ≤ (r : ℝ) := Nat.cast_nonneg r
  refine ⟨rfl, ?_, ?_⟩ <;> simp only [BLOCK_HEIGHT] <;> linarith

lemma blockHit_false_of_low (px py : ℝ) (block : Block) (hy : block.y ≤ 130)
    (hpy : (150 : ℝ) ≤ py) : blockHit px py block = false := by
  rw [Bool.eq_false_iff]
  intro h
  have h5 := ((blockHit_iff px py block).mp h).2.2.2.2
  simp only [BLOCK_HEIGHT] at h5
  linarith

lemma initBlocks_not_all_destroyed :
    initBlocks.all (fun block => block.isDestroyed) = false := by
  rw [Bool.eq_false_iff]
  intro h
  rw [List.all_eq_true] at h
  have hmem : ({ x := 0, y := 30, isDestroyed := false } : Block) ∈ initBlocks := by
    rw [mem_initBlocks_iff]
    refine ⟨0, ?_, 0, ?_, ?_⟩
    · unfold BLOCK_ROWS
      omega
    · unfold BLOCK_COLS
      omega
    · norm_num
  have := h _ hmem
  simp at this

/- Helper lemmas about the wall, paddle and whole-frame phases. -/

lemma wallReflect_xy (b : Ball) : (wallReflect b).x = b.x ∧ (wallReflect b).y = b.y := by
  unfold wallReflect
  by_cases h1 : b.x ≤ 0 ∨ b.x + BALL_SIZE ≥ WIDTH <;>
    by_cases h2 : b.y ≤ 0 <;> simp [h1, h2]

lemma wallReflect_dx (b : Ball) :
    (wallReflect b).dx = if b.x ≤ 0 ∨ b.x + BALL_SIZE ≥ WIDTH then -b.dx else b.dx := by
  unfold wallReflect
  by_cases h1 : b.x ≤ 0 ∨ b.x + BALL_SIZE ≥ WIDTH <;>
    by_cases h2 : b.y ≤ 0 <;> simp [h1, h2]

lemma paddlePhase_miss (p : ℝ) (b : Ball) (h : ¬ paddleCond p b) : paddlePhase p b = b := by
  unfold paddlePhase
  rw [if_neg h]

lemma animate_ball (s : AppState) :
    (animate s).ball =
      { x := (ballBeforeBlocks s).x
        y := (ballBeforeBlocks s).y
        dx := (blockRes s).dx
        dy := (blockRes s).dy } := rfl

lemma animate_platformX (s : AppState) : (animate s).platformX = newPlatformX s := rfl

lemma animate_score (s : AppState) :
    (animate s).score =
      if 0 < (blockRes s).destroyedCount then s.score + (blockRes s).destroyedCount * 10
      else s.score := rfl

lemma animate_gameState (s : AppState) :
    (animate s).gameState =
      if (blockRes s).blocks.all (fun block => block.isDestroyed) = true then GameState.victory
      else if (ballBeforeBlocks s).y > HEIGHT then GameState.gameover
      else s.gameState := rfl

lemma animate_blocks (s : AppState) :
    (animate s).blocks =
      if 0 < (blockRes s).destroyedCount then (blockRes s).blocks else s.blocks := rfl

lemma noColl_ball (s : AppState) (h : noBallCollisions s) :
    ballBeforeBlocks s = wallReflect (integrateBall s.ball) ∧
    blockRes s =
      { blocks := s.blocks
        dx := (wallReflect (integrateBall s.ball)).dx
        dy := (wallReflect (integrateBall s.ball)).dy
        destroyedCount := 0 } := by
  obtain ⟨hp, hb⟩ := h
  have hbb : ballBeforeBlocks s = wallReflect (integrateBall s.ball) := by
    unfold ballBeforeBlocks
    rw [paddlePhase_miss _ _ hp]
  refine ⟨hbb, ?_⟩
  unfold blockRes
  rw [hbb, blockPhase_miss _ _ hb]

lemma animate_of_noColl (s : AppState) (h : noBallCollisions s) :
    (animate s).ball = wallReflect (integrateBall s.ball) ∧
    (animate s).blocks = s.blocks ∧ (animate s).score = s.score := by
  obtain ⟨hbb, hbr⟩ := noColl_ball s h
  refine ⟨?_, ?_, ?_⟩
  · rw [animate_ball, hbb, hbr]
  · rw [animate_blocks, hbr]
    simp
  · rw [animate_score, hbr]
    simp

lemma noColl_of_shape (s : AppState)
    (h1 : (wallReflect (integrateBall s.ball)).y + BALL_SIZE < PLATFORM_Y)
    (h2 : (150 : ℝ) ≤ (wallReflect (integrateBall s.ball)).y)
    (h3 : ∀ block ∈ s.blocks, block.y ≤ 130) : noBallCollisions s := by
  constructor
  · intro hp
    exact absurd hp.1 (by linarith)
  · intro block hb
    exact blockHit_false_of_low _ _ _ (h3 block hb) h2

lemma xInv_step (v : ℝ) (s : AppState)
    (hs : xInv v s) (hc : noBallCollisions s) : xInv v (animate s) := by
  obtain ⟨habs, hlo, hhi, hneg, hpos⟩ := hs
  have hball := (animate_of_noColl s hc).1
  have hx : (animate s).ball.x = s.ball.x + s.ball.dx := by
    rw [hball, (wallReflect_xy _).1]
    simp [integrateBall]
  have hdx : (animate s).ball.dx =
      if s.ball.x + s.ball.dx ≤ 0 ∨ s.ball.x + s.ball.dx + BALL_SIZE ≥ WIDTH
      then -s.ball.dx else s.ball.dx := by
    rw [hball, wallReflect_dx]
    simp [integrateBall]
  have hv0 : 0 ≤ v := habs ▸ abs_nonneg _
  have hD := (abs_eq hv0).mp habs
  have hWB : WIDTH - BALL_SIZE = (590 : ℝ) := by norm_num [WIDTH, BALL_SIZE]
  unfold xInv
  rw [hx, hdx]
  rw [hWB] at hhi hpos ⊢
  by_cases hw : s.ball.x + s.ball.dx ≤ 0 ∨ s.ball.x + s.ball.dx + BALL_SIZE ≥ WIDTH
  · rw [if_pos hw]
    refine ⟨by rw [abs_neg]; exact habs, ?_, ?_, ?_, ?_⟩
    · rcases hD with h | h
      · linarith
      · by_cases hX : s.ball.x < 0
        · have h0 : v = 0 := by
            have hdv := hneg hX
            linarith
          linarith
        · push_neg at hX
          linarith
    · rcases hD with h | h
      · by_cases hX : (590 : ℝ) < s.ball.x
        · have h0 : v = 0 := by
            have hdv := hpos hX
            linarith
          linarith
        · push_neg at hX
          linarith
      · linarith
    · intro hlt
      rcases hD with h | h
      · exfalso
        linarith
      · linarith
    · intro hgt
      rcases hD with h | h
      · linarith
      · exfalso
        linarith
  · rw [if_neg hw]
    push_neg at hw
    obtain ⟨hw1, hw2⟩ := hw
    have hw2' : s.ball.x + s.ball.dx < 590 := by
      have hB10 : BALL_SIZE = (10 : ℝ) := rfl
      have hW600 : WIDTH = (600 : ℝ) := rfl
      rw [hB10, hW600] at hw2
      linarith
    refine ⟨habs, by linarith, by linarith, ?_, ?_⟩
    · intro hlt
      exfalso
      linarith
    · intro hgt
      exfalso
      linarith

lemma xInv_frame (v : ℝ) (s : AppState)
    (hs : xInv v s) (hc : noBallCollisions s) : xInv v (frame s) := by
  unfold frame
  split
  · exact xInv_step v s hs hc
  · exact hs

/- Evaluation lemmas at the concrete states. -/

lemma newPlatformX_fixed (s : AppState) (h : s.targetX = s.platformX) :
    newPlatformX s = s.platformX := by
  unfold newPlatformX
  rw [h]
  ring

lemma wr_reset (s : AppState) :
    wallReflect (integrateBall (resetGame s).ball) =
      { x := 305, y := 195, dx := 5, dy := -5 } := by
  have hb : (resetGame s).ball = { x := 300, y := 200, dx := 5, dy := -5 } := by
    unfold resetGame
    norm_num [WIDTH, HEIGHT, BALL_SPEED]
  rw [hb]
  unfold integrateBall wallReflect
  norm_num [BALL_SIZE, WIDTH]

lemma noColl_reset (s : AppState) : noBallCollisions (resetGame s) := by
  apply noColl_of_shape
  · rw [wr_reset]
    norm_num [BALL_SIZE, PLATFORM_Y, HEIGHT, PLATFORM_HEIGHT]
  · rw [wr_reset]
    norm_num
  · intro block hb
    have hbs : (resetGame s).blocks = initBlocks := rfl
    rw [hbs] at hb
    exact (initBlocks_props block hb).2.2

lemma wr_stateMidair :
    wallReflect (integrateBall stateMidair.ball) =
      { x := 305, y := 195, dx := 5, dy := -5 } := by
  have hb : stateMidair.ball = { x := 300, y := 200, dx := 5, dy := -5 } := rfl
  rw [hb]
  unfold integrateBall wallReflect
  norm_num [BALL_SIZE, WIDTH]

lemma noColl_stateMidair : noBallCollisions stateMidair := by
  apply noColl_of_shape
  · rw [wr_stateMidair]
    norm_num [BALL_SIZE, PLATFORM_Y, HEIGHT, PLATFORM_HEIGHT]
  · rw [wr_stateMidair]
    norm_num
  · intro block hb
    have hbs : stateMidair.blocks = initBlocks := rfl
    rw [hbs] at hb
    exact (initBlocks_props block hb).2.2

lemma wr_stateLeftWall :
    wallReflect (integrateBall stateLeftWall.ball) =
      { x := -5, y := 195, dx := 5, dy := -5 } := by
  have hb : stateLeftWall.ball = { x := 0, y := 200, dx := -5, dy := -5 } := rfl
  rw [hb]
  unfold integrateBall wallReflect
  norm_num [BALL_SIZE, WIDTH]

lemma noColl_stateLeftWall : noBallCollisions stateLeftWall := by
  apply noColl_of_shape
  · rw [wr_stateLeftWall]
    norm_num [BALL_SIZE, PLATFORM_Y, HEIGHT, PLATFORM_HEIGHT]
  · rw [wr_stateLeftWall]
    norm_num
  · intro block hb
    have hbs : stateLeftWall.blocks = initBlocks := rfl
    rw [hbs] at hb
    exact (initBlocks_props block hb).2.2

lemma wr_stateTwoHit :
    wallReflect (integrateBall stateTwoHit.ball) =
      { x := 52, y := 35, dx := 5, dy := -5 } := by
  have hb : stateTwoHit.ball = { x := 47, y := 40, dx := 5, dy := -5 } := rfl
  rw [hb]
  unfold integrateBall wallReflect
  norm_num [BALL_SIZE, WIDTH]

lemma bbb_stateTwoHit : ballBeforeBlocks stateTwoHit = { x := 52, y := 35, dx := 5, dy := -5 } := by
  unfold ballBeforeBlocks
  have hpX : newPlatformX stateTwoHit = 250 := newPlatformX_fixed _ rfl
  rw [wr_stateTwoHit, hpX, paddlePhase_miss]
  intro h
  have h1 := h.1
  norm_num [BALL_SIZE, PLATFORM_Y, HEIGHT, PLATFORM_HEIGHT] at h1

set_option maxHeartbeats 1000000 in
lemma countP_initBlocks_at_52_35 : initBlocks.countP (blockHit 52 35) = 2 := by
  have h5 : List.range BLOCK_ROWS = [0, 1, 2, 3, 4] := rfl
  have h10 : List.range BLOCK_COLS = [0, 1, 2, 3, 4, 5, 6, 7, 8, 9] := rfl
  unfold initBlocks
  rw [h5, h10]
  simp only [List.map_cons, List.map_nil, List.flatten_cons, List.flatten_nil, List.append_nil,
    List.countP_append, List.countP_cons, List.countP_nil]
  norm_num [blockHit, BALL_SIZE, BLOCK_WIDTH, BLOCK_HEIGHT]

lemma count_stateTwoHit : (blockRes stateTwoHit).destroyedCount = 2 := by
  unfold blockRes
  rw [bbb_stateTwoHit]
  have hbs : stateTwoHit.blocks = initBlocks := rfl
  rw [hbs, blockPhase_count]
  exact countP_initBlocks_at_52_35

lemma bbb_stateLastBlock :
    ballBeforeBlocks stateLastBlock = { x := 52, y := 35, dx := 5, dy := -5 } := by
  unfold ballBeforeBlocks
  have hb : stateLastBlock.ball = { x := 47, y := 40, dx := 5, dy := -5 } := rfl
  have hpX : newPlatformX stateLastBlock = 250 := newPlatformX_fixed _ rfl
  have hwr : wallReflect (integrateBall stateLastBlock.ball) =
      { x := 52, y := 35, dx := 5, dy := -5 } := by
    rw [hb]
    unfold integrateBall wallReflect
    norm_num [BALL_SIZE, WIDTH]
  rw [hwr, hpX, paddlePhase_miss]
  intro h
  have h1 := h.1
  norm_num [BALL_SIZE, PLATFORM_Y, HEIGHT, PLATFORM_HEIGHT] at h1

lemma blockRes_stateLastBlock :
    blockRes stateLastBlock =
      { blocks := [{ x := 0, y := 30, isDestroyed := true }]
        dx := -5
        dy := -5
        destroyedCount := 1 } := by
  unfold blockRes
  rw [bbb_stateLastBlock]
  have hbs : stateLastBlock.blocks = [{ x := 0, y := 30, isDestroyed := false }] := rfl
  rw [hbs]
  unfold blockPhase
  rw [List.foldl_cons, List.foldl_nil]
  unfold blockCollide
  norm_num [BALL_SIZE, BLOCK_WIDTH, BLOCK_HEIGHT, abs_le]

lemma corner_mem_initBlocks : ({ x := 0, y := 30, isDestroyed := false } : Block) ∈ initBlocks := by
  rw [mem_initBlocks_iff]
  refine ⟨0, ?_, 0, ?_, ?_⟩
  · unfold BLOCK_ROWS
    omega
  · unfold BLOCK_COLS
    omega
  · norm_num

lemma foldl_add_sum (l : List ℝ) (a : ℝ) : l.foldl (fun u v => u + v) a = a + l.sum := by
  induction l generalizing a with
  | nil => simp
  | cons b t ih =>
    rw [List.foldl_cons, ih, List.sum_cons]
    ring

/- Claim theorems. -/

/-- C1, counterexample: with the ball's box at `(52, 35)` straddling the
5-pixel gap between the first two live blocks of grid row 0, a single
frame of the collision loop destroys two blocks and the frame adds 20
points, so the per-frame destroyed count used for scoring exceeds 1. -/
theorem c1_single_destruction_cex :
    (blockRes stateTwoHit).destroyedCount = 2 ∧
    1 < (blockRes stateTwoHit).destroyedCount ∧
    (animate stateTwoHit).score = stateTwoHit.score + 20 := by
  refine ⟨count_stateTwoHit, ?_, ?_⟩
  · rw [count_stateTwoHit]
    omega
  · rw [animate_score, count_stateTwoHit]
    norm_num

/-- C1, amended: the block-collision loop does not stop after a match:
it destroys every non-destroyed block whose bounding box the ball's box
overlaps at that step, and the per-frame destroyed count reported for
scoring equals the number of such blocks (which can exceed 1). -/
theorem c1_destroyed_count_eq_overlap_count (b : Ball) (blocks : List Block) :
    (blockPhase b blocks).destroyedCount = blocks.countP (blockHit b.x b.y) :=
  blockPhase_count b blocks

/-- C2, counterexample: immediately after `resetGame` the ball is already
moving — there is no `isMoving` flag and no launch action — so the very
first Playing frame changes the ball's position instead of skipping
integration. -/
theorem c2_ball_rests_after_reset_cex :
    (resetGame stateMenu).ball.x = 300 ∧
    (frame (resetGame stateMenu)).ball.x = 305 ∧
    (frame (resetGame stateMenu)).ball.x ≠ (resetGame stateMenu).ball.x := by
  have hplay : (resetGame stateMenu).gameState = GameState.playing := rfl
  have hf : frame (resetGame stateMenu) = animate (resetGame stateMenu) := by
    unfold frame
    rw [if_pos hplay]
  have hball := (animate_of_noColl _ (noColl_reset stateMenu)).1
  rw [wr_reset] at hball
  have hbx : (resetGame stateMenu).ball.x = 300 := by
    show WIDTH / 2 = (300 : ℝ)
    norm_num [WIDTH]
  have hbx' : (frame (resetGame stateMenu)).ball.x = 305 := by
    rw [hf, hball]
  refine ⟨hbx, hbx', ?_⟩
  rw [hbx, hbx']
  norm_num

/-- C2, amended: a game reset puts the ball at the field center already
moving with velocity `(ballSpeed, -ballSpeed)`; the code has no
`isMoving` flag and no launch action, and every Playing frame integrates
the ball position by its velocity. -/
theorem c2_reset_ball_moves_immediately (s : AppState) :
    (resetGame s).ball =
      { x := WIDTH / 2, y := HEIGHT / 2, dx := BALL_SPEED, dy := -BALL_SPEED } ∧
    (frame (resetGame s)).ball.x = (resetGame s).ball.x + BALL_SPEED ∧
    (frame (resetGame s)).ball.y = (resetGame s).ball.y - BALL_SPEED := by
  have hplay : (resetGame s).gameState = GameState.playing := rfl
  have hf : frame (resetGame s) = animate (resetGame s) := by
    unfold frame
    rw [if_pos hplay]
  have hball := (animate_of_noColl _ (noColl_reset s)).1
  rw [wr_reset] at hball
  refine ⟨rfl, ?_, ?_⟩
  · rw [hf, hball]
    show (305 : ℝ) = WIDTH / 2 + BALL_SPEED
    norm_num [WIDTH, BALL_SPEED]
  · rw [hf, hball]
    show (195 : ℝ) = HEIGHT / 2 - BALL_SPEED
    norm_num [HEIGHT, BALL_SPEED]

/-- C3, counterexample: the claim's "ball at field center with
`isMoving=false`" fails — the reset ball carries nonzero velocity and the
next frame already moves it vertically, so the reset snapshot is not at
rest. -/
theorem c3_reset_snapshot_cex :
    (resetGame stateMenu).ball.dy = -BALL_SPEED ∧
    (resetGame stateMenu).ball.dy ≠ 0 ∧
    (frame (resetGame stateMenu)).ball.y ≠ (resetGame stateMenu).ball.y := by
  have hplay : (resetGame stateMenu).gameState = GameState.playing := rfl
  have hf : frame (resetGame stateMenu) = animate (resetGame stateMenu) := by
    unfold frame
    rw [if_pos hplay]
  have hball := (animate_of_noColl _ (noColl_reset stateMenu)).1
  rw [wr_reset] at hball
  refine ⟨rfl, ?_, ?_⟩
  · show -BALL_SPEED ≠ (0 : ℝ)
    norm_num [BALL_SPEED]
  · rw [hf, hball]
    show (195 : ℝ) ≠ HEIGHT / 2
    norm_num [HEIGHT]

/-- C3, amended: a reset (start or restart, identical code path)
reproduces the initial snapshot: all blocks live at their original grid
positions, ball at the field center with velocity
`(ballSpeed, -ballSpeed)` (there is no `isMoving` field), paddle target
and current both centered, score 0, state Playing. -/
theorem c3_reset_snapshot (s : AppState) :
    (resetGame s).ball =
      { x := WIDTH / 2, y := HEIGHT / 2, dx := BALL_SPEED, dy := -BALL_SPEED } ∧
    (resetGame s).platformX = (WIDTH - PLATFORM_WIDTH) / 2 ∧
    (resetGame s).targetX = (resetGame s).platformX ∧
    (resetGame s).score = 0 ∧
    (resetGame s).gameState = GameState.playing ∧
    (resetGame s).blocks = initBlocks ∧
    ∀ block ∈ initBlocks, block.isDestroyed = false ∧
      ∃ r : ℕ, r < BLOCK_ROWS ∧ ∃ c : ℕ, c < BLOCK_COLS ∧
        block.x = (c : ℝ) * (BLOCK_WIDTH + 5) ∧ block.y = (r : ℝ) * (BLOCK_HEIGHT + 5) + 30 := by
  refine ⟨rfl, ?_, rfl, rfl, rfl, rfl, ?_⟩
  · show WIDTH / 2 - PLATFORM_WIDTH / 2 = (WIDTH - PLATFORM_WIDTH) / 2
    ring
  · intro block hb
    obtain ⟨r, hr, c, hc, rfl⟩ := (mem_initBlocks_iff block).mp hb
    exact ⟨rfl, r, hr, c, hc, rfl, rfl⟩

/-- Witness for C3: the theorem applied at a concrete state and at the
corner block of the grid. -/
theorem c3_reset_snapshot_witness :
    (resetGame stateMenu).score = 0 ∧
    ({ x := 0, y := 30, isDestroyed := false } : Block).isDestroyed = false ∧
    (∃ r : ℕ, r < BLOCK_ROWS ∧ ∃ c : ℕ, c < BLOCK_COLS ∧
      ({ x := 0, y := 30, isDestroyed := false } : Block).x = (c : ℝ) * (BLOCK_WIDTH + 5) ∧
      ({ x := 0, y := 30, isDestroyed := false } : Block).y =
        (r : ℝ) * (BLOCK_HEIGHT + 5) + 30) := by
  have h := c3_reset_snapshot stateMenu
  have hcorner := h.2.2.2.2.2.2 _ corner_mem_initBlocks
  exact ⟨h.2.2.2.1, hcorner.1, hcorner.2⟩

/-- C4, counterexample: the claim's own scenario — a ball at `x = 0`
moving with `dx < 0` — leaves `[0, WIDTH - BALL_SIZE]` on that very step:
the position is integrated before the boundary check and is never
clamped, so the frame ends at `x = -5` even though `dx` was flipped
positive on the same step. -/
theorem c4_ball_never_exits_cex :
    (frame stateLeftWall).ball.x = -5 ∧
    ¬ (0 ≤ (frame stateLeftWall).ball.x) ∧
    (frame stateLeftWall).ball.dx = 5 := by
  have hf : frame stateLeftWall = animate stateLeftWall := by
    have hplay : stateLeftWall.gameState = GameState.playing := rfl
    unfold frame
    rw [if_pos hplay]
  have hball := (animate_of_noColl _ noColl_stateLeftWall).1
  rw [wr_stateLeftWall] at hball
  rw [hf, hball]
  norm_num

/-- C4, amended: on the step in which the ball crosses a side wall, `dx`
is flipped toward the interior, and over any run of frames without
paddle or block collisions the ball's x never exits the widened band
`[-v, (WIDTH - BALL_SIZE) + v]` where `v = |dx|`; it can overhang
`[0, WIDTH - BALL_SIZE]` by at most `v` for the single reflecting frame. -/
theorem c4_wall_reflection_inv :
    (∀ s : AppState, s.ball.x = 0 → s.ball.dx < 0 → noBallCollisions s →
      s.gameState = GameState.playing →
      (frame s).ball.dx = -s.ball.dx ∧ 0 < (frame s).ball.dx) ∧
    (∀ (v : ℝ) (s : AppState) (n : ℕ), xInv v s →
      (∀ k, k < n → noBallCollisions (frame^[k] s)) → xInv v (frame^[n] s)) := by
  constructor
  · intro s hx hdx hc hplay
    have hf : frame s = animate s := by
      unfold frame
      rw [if_pos hplay]
    have hball := (animate_of_noColl s hc).1
    have hflip : (animate s).ball.dx = -s.ball.dx := by
      rw [hball, wallReflect_dx, if_pos]
      · simp [integrateBall]
      · left
        simp [integrateBall, hx]
        linarith
    rw [hf]
    exact ⟨hflip, by rw [hflip]; linarith⟩
  · intro v s n
    induction n with
    | zero =>
      intro hs h
      simpa using hs
    | succ n ih =>
      intro hs h
      rw [Function.iterate_succ_apply']
      exact xInv_frame v _ (ih hs (fun k hk => h k (Nat.lt_succ_of_lt hk)))
        (h n (Nat.lt_succ_self n))

/-- Witness for C4: the flip clause at the left-wall state and the
invariant after one collision-free frame from mid-air. -/
theorem c4_wall_reflection_inv_witness :
    ((frame stateLeftWall).ball.dx = -stateLeftWall.ball.dx ∧
      0 < (frame stateLeftWall).ball.dx) ∧
    xInv 5 (frame^[1] stateMidair) := by
  constructor
  · exact c4_wall_reflection_inv.1 stateLeftWall rfl (by norm_num [stateLeftWall])
      noColl_stateLeftWall rfl
  · apply c4_wall_reflection_inv.2 5 stateMidair 1
    · unfold xInv
      norm_num [stateMidair, WIDTH, BALL_SIZE, abs_eq_self]
    · intro k hk
      have hk0 : k = 0 := by omega
      rw [hk0]
      simpa using noColl_stateMidair

/-- C5: simulation advances only while the state is exactly Playing; in
every other state (Menu, GameOver, Victory — the code has no Paused
state, so that disjunct is vacuous) the frame is the identity: ball,
paddle, blocks and score are all unchanged. -/
theorem c5_step_only_while_playing (s : AppState) :
    (s.gameState ≠ GameState.playing → frame s = s) ∧
    (s.gameState = GameState.playing → frame s = animate s) := by
  constructor
  · intro h
    unfold frame
    rw [if_neg h]
  · intro h
    unfold frame
    rw [if_pos h]

/-- Witness for C5: a menu-state frame is a no-op. -/
theorem c5_step_only_while_playing_witness : frame stateMenu = stateMenu :=
  (c5_step_only_while_playing stateMenu).1 (by decide)

/-- C6: in every frame the score grows by exactly `10 * destroyedCount`
for that frame (`+0` when nothing is destroyed), and whenever the
frame's updated block list is fully destroyed the state becomes Victory
in that same frame. -/
theorem c6_score_and_victory (s : AppState) :
    (animate s).score = s.score + (blockRes s).destroyedCount * 10 ∧
    ((blockRes s).blocks.all (fun block => block.isDestroyed) = true →
      (animate s).gameState = GameState.victory) := by
  constructor
  · rw [animate_score]
    by_cases h : 0 < (blockRes s).destroyedCount
    · rw [if_pos h]
    · rw [if_neg h]
      omega
  · intro h
    rw [animate_gameState, if_pos h]

/-- Witness for C6: destroying the last live block yields Victory and
10 points in the same frame. -/
theorem c6_score_and_victory_witness :
    (blockRes stateLastBlock).blocks.all (fun block => block.isDestroyed) = true ∧
    (animate stateLastBlock).gameState = GameState.victory ∧
    (animate stateLastBlock).score = 10 := by
  have hall : (blockRes stateLastBlock).blocks.all (fun block => block.isDestroyed) = true := by
    rw [blockRes_stateLastBlock]
    rfl
  have h := c6_score_and_victory stateLastBlock
  refine ⟨hall, h.2 hall, ?_⟩
  rw [h.1, blockRes_stateLastBlock]
  norm_num [stateLastBlock]


/-- C7: the Input Smoother keeps a FIFO window of at most
`HAND_HISTORY_SIZE = 5` samples — a push appends the new sample and, at
capacity, evicts exactly the oldest — the smoothed value is the
arithmetic mean of the held samples, and feeding `[10,20,30,40,50,60]`
leaves the window `[20,30,40,50,60]` with mean 40. -/
theorem c7_input_smoother :
    (∀ (hist : List ℝ) (x : ℝ), hist.length ≤ HAND_HISTORY_SIZE →
      (pushSample hist x).length ≤ HAND_HISTORY_SIZE ∧
      pushSample hist x = (if hist.length = HAND_HISTORY_SIZE then hist.tail else hist) ++ [x]) ∧
    (∀ hist : List ℝ, smoothedValue hist = hist.sum / (hist.length : ℝ)) ∧
    List.foldl pushSample [] [10, 20, 30, 40, 50, 60] = [20, 30, 40, 50, 60] ∧
    smoothedValue [20, 30, 40, 50, 60] = 40 := by
  refine ⟨?_, ?_, ?_, ?_⟩
  · intro hist x hlen
    unfold pushSample
    by_cases h : hist.length = HAND_HISTORY_SIZE
    · have hlt : HAND_HISTORY_SIZE < (hist ++ [x]).length := by
        simp [h]
      rw [if_pos hlt, if_pos h]
      constructor
      · cases hist with
        | nil => simp [HAND_HISTORY_SIZE] at h
        | cons a t =>
          simp only [List.length_cons] at h
          simp [List.length_append, ← h]
      · cases hist with
        | nil => simp [HAND_HISTORY_SIZE] at h
        | cons a t => simp
    · have hlt : ¬ HAND_HISTORY_SIZE < (hist ++ [x]).length := by
        simp only [List.length_append, List.length_cons, List.length_nil, not_lt]
        omega
      rw [if_neg hlt, if_neg h]
      refine ⟨?_, rfl⟩
      simp only [List.length_append, List.length_cons, List.length_nil]
      omega
  · intro hist
    unfold smoothedValue
    rw [foldl_add_sum]
    ring_nf
  · rfl
  · unfold smoothedValue
    norm_num [List.foldl_cons, List.foldl_nil]

/-- Witness for C7: a push at capacity evicts the oldest sample and
stays at five samples. -/
theorem c7_input_smoother_witness :
    pushSample [10, 20, 30, 40, 50] 60 = [20, 30, 40, 50, 60] ∧
    (pushSample [10, 20, 30, 40, 50] 60).length ≤ HAND_HISTORY_SIZE := by
  have h := c7_input_smoother.1 [10, 20, 30, 40, 50] 60 (by norm_num [HAND_HISTORY_SIZE])
  refine ⟨?_, h.1⟩
  rw [h.2]
  norm_num [HAND_HISTORY_SIZE]

/-- C8: every frame moves the paddle from `current` to
`current + (target - current) * SMOOTHING_FACTOR` with
`SMOOTHING_FACTOR = 0.3 ∈ (0,1)`, and the update never overshoots: the
new position lies between the old position and the target, inclusive. -/
theorem c8_paddle_easing (s : AppState) :
    (animate s).platformX = s.platformX + (s.targetX - s.platformX) * SMOOTHING_FACTOR ∧
    0 < SMOOTHING_FACTOR ∧ SMOOTHING_FACTOR < 1 ∧
    min s.platformX s.targetX ≤ (animate s).platformX ∧
    (animate s).platformX ≤ max s.platformX s.targetX := by
  have hp : (animate s).platformX = s.platformX + (s.targetX - s.platformX) * SMOOTHING_FACTOR := by
    rw [animate_platformX]
    unfold newPlatformX
    rfl
  have hS : SMOOTHING_FACTOR = (3 : ℝ) / 10 := by
    norm_num [SMOOTHING_FACTOR]
  refine ⟨hp, by norm_num [hS], by norm_num [hS], ?_, ?_⟩
  · rw [hp, hS]
    rcases le_total s.platformX s.targetX with h | h
    · rw [min_eq_left h]
      linarith
    · rw [min_eq_right h]
      linarith
  · rw [hp, hS]
    rcases le_total s.platformX s.targetX with h | h
    · rw [max_eq_right h]
      linarith
    · rw [max_eq_left h]
      linarith

/-- C9: when the paddle collision triggers with the ball's center
exactly at the paddle's center (`hitPoint = 0`) and no block then
overlaps the snapped ball, the frame ends with `dx = 0`, `dy = -speed`
where `speed` is the pre-collision magnitude `sqrt(dx² + dy²)`, and the
ball's y snapped to exactly `PLATFORM_Y - BALL_SIZE`. -/
theorem c9_paddle_center_hit (s : AppState)
    (hpad : paddleCond (newPlatformX s) (wallReflect (integrateBall s.ball)))
    (hcenter : (wallReflect (integrateBall s.ball)).x + BALL_SIZE / 2 =
      newPlatformX s + PLATFORM_WIDTH / 2)
    (hnb : ∀ block ∈ s.blocks,
      blockHit (wallReflect (integrateBall s.ball)).x (PLATFORM_Y - BALL_SIZE) block = false) :
    (animate s).ball.dx = 0 ∧
    (animate s).ball.dy =
      -Real.sqrt ((wallReflect (integrateBall s.ball)).dx ^ 2 +
        (wallReflect (integrateBall s.ball)).dy ^ 2) ∧
    (animate s).ball.y = PLATFORM_Y - BALL_SIZE := by
  set b1 := wallReflect (integrateBall s.ball) with hb1
  have hbb : ballBeforeBlocks s =
      { x := b1.x, y := PLATFORM_Y - BALL_SIZE, dx := 0,
        dy := -Real.sqrt (b1.dx ^ 2 + b1.dy ^ 2) } := by
    unfold ballBeforeBlocks
    rw [← hb1]
    unfold paddlePhase
    rw [if_pos hpad]
    have hz : b1.x + BALL_SIZE / 2 - (newPlatformX s + PLATFORM_WIDTH / 2) = 0 := by
      linarith
    rw [hz]
    rw [zero_div, zero_mul, Real.sin_zero, Real.cos_zero, mul_zero, mul_one,
      abs_of_nonneg (Real.sqrt_nonneg _)]
  have hres : blockRes s =
      { blocks := s.blocks, dx := 0, dy := -Real.sqrt (b1.dx ^ 2 + b1.dy ^ 2),
        destroyedCount := 0 } := by
    unfold blockRes
    rw [hbb]
    exact blockPhase_miss _ _ hnb
  have hdx : (animate s).ball.dx = (blockRes s).dx := rfl
  have hdy : (animate s).ball.dy = (blockRes s).dy := rfl
  have hy : (animate s).ball.y = (ballBeforeBlocks s).y := rfl
  refine ⟨?_, ?_, ?_⟩
  · rw [hdx, hres]
  · rw [hdy, hres]
  · rw [hy, hbb]

/-- Witness for C9: a concrete dead-center paddle hit with incoming
velocity `(5, -5)`, so the rebound is straight up at speed `sqrt 50`. -/
theorem c9_paddle_center_hit_witness :
    (animate stateCenterHit).ball.dx = 0 ∧
    (animate stateCenterHit).ball.dy = -Real.sqrt 50 ∧
    (animate stateCenterHit).ball.y = 370 := by
  have hwr : wallReflect (integrateBall stateCenterHit.ball) =
      { x := 295, y := 370, dx := 5, dy := -5 } := by
    have hb : stateCenterHit.ball = { x := 290, y := 375, dx := 5, dy := -5 } := rfl
    rw [hb]
    unfold integrateBall wallReflect
    norm_num [BALL_SIZE, WIDTH]
  have hpX : newPlatformX stateCenterHit = 250 := newPlatformX_fixed _ rfl
  have hpad : paddleCond (newPlatformX stateCenterHit)
      (wallReflect (integrateBall stateCenterHit.ball)) := by
    rw [hwr, hpX]
    unfold paddleCond
    norm_num [BALL_SIZE, PLATFORM_Y, HEIGHT, PLATFORM_HEIGHT, PLATFORM_WIDTH]
  have hcenter : (wallReflect (integrateBall stateCenterHit.ball)).x + BALL_SIZE / 2 =
      newPlatformX stateCenterHit + PLATFORM_WIDTH / 2 := by
    rw [hwr, hpX]
    norm_num [BALL_SIZE, PLATFORM_WIDTH]
  have hnb : ∀ block ∈ stateCenterHit.blocks,
      blockHit (wallReflect (integrateBall stateCenterHit.ball)).x (PLATFORM_Y - BALL_SIZE)
        block = false := by
    intro block hb
    have hbs : stateCenterHit.blocks = initBlocks := rfl
    rw [hbs] at hb
    apply blockHit_false_of_low
    · exact (initBlocks_props block hb).2.2
    · norm_num [PLATFORM_Y, BALL_SIZE, HEIGHT, PLATFORM_HEIGHT]
  obtain ⟨h1, h2, h3⟩ := c9_paddle_center_hit stateCenterHit hpad hcenter hnb
  refine ⟨h1, ?_, ?_⟩
  · rw [h2, hwr]
    norm_num
  · rw [h3]
    norm_num [PLATFORM_Y, BALL_SIZE, HEIGHT, PLATFORM_HEIGHT]

/-- C10: a hand-position sample mutates the hand history and the paddle
target only while the state is exactly `playing` — in any other state
(and when no hand is detected) the whole state is untouched — and an
applied update pushes through the smoothing window and clamps the target
into `[0, WIDTH - PLATFORM_WIDTH]`. -/
theorem c10_sample_gating (s : AppState) :
    (∀ sample : Option ℝ, s.gameState ≠ GameState.playing → onResults sample s = s) ∧
    onResults Option.none s = s ∧
    (∀ x : ℝ, s.gameState = GameState.playing →
      (onResults (Option.some x) s).handHistory = pushSample s.handHistory (x * WIDTH) ∧
      0 ≤ (onResults (Option.some x) s).targetX ∧
      (onResults (Option.some x) s).targetX ≤ WIDTH - PLATFORM_WIDTH) := by
  refine ⟨?_, rfl, ?_⟩
  · intro sample h
    cases sample with
    | none => rfl
    | some x =>
      show (if s.gameState = GameState.playing then _ else s) = s
      rw [if_neg h]
  · intro x h
    have hsome : onResults (Option.some x) s =
        { s with
          handHistory := pushSample s.handHistory (x * WIDTH)
          targetX := max 0 (min (WIDTH - PLATFORM_WIDTH)
            (smoothedValue (pushSample s.handHistory (x * WIDTH)) - PLATFORM_WIDTH / 2)) } := by
      show (if s.gameState = GameState.playing then _ else s) = _
      rw [if_pos h]
    rw [hsome]
    refine ⟨rfl, le_max_left _ _, ?_⟩
    apply max_le
    · norm_num [WIDTH, PLATFORM_WIDTH]
    · exact min_le_left _ _

/-- Witness for C10: a sample delivered on the menu screen changes
nothing; a sample delivered while playing yields a clamped target. -/
theorem c10_sample_gating_witness :
    onResults (Option.some (1 / 2)) stateMenu = stateMenu ∧
    0 ≤ (onResults (Option.some 2) stateMidair).targetX ∧
    (onResults (Option.some 2) stateMidair).targetX ≤ WIDTH - PLATFORM_WIDTH := by
  refine ⟨(c10_sample_gating stateMenu).1 _ (by decide), ?_, ?_⟩
  · exact ((c10_sample_gating stateMidair).2.2 2 rfl).2.1
  · exact ((c10_sample_gating stateMidair).2.2 2 rfl).2.2
